import Mathlib

/-!
Verification of the `iap` receipt-validation library (Rust sources under
`src/lib.rs`, `src/apple.rs`, `src/google.rs`, `src/error.rs`).

The shallow embedding translates the library's pure data model and
evaluation functions directly from the Rust source.  External effects —
the hyper HTTP client, serde_json text parsing, OAuth token exchange —
are modelled as oracle parameters (`server`, `net`, `..._from_str`)
returning `Except Error _`, exactly at the points where the source calls
into those collaborators; everything in between is translated
line-by-line.  Rust `i64` string parsing (`str::parse::<i64>`) is
embedded as `parseI64` over `Int` with the explicit two's-complement
range check.  Timestamps (`DateTime<Utc>`; the code only ever uses
`now.timestamp_millis()`) are modelled as `Int` milliseconds.
-/

namespace Iap

/-- The error enum of `src/error.rs` (`Error`).  Wrapped third-party
payloads (serde/hyper/oauth error values) are dropped; only the `Custom`
variant's message is kept, matching the constructors of the Rust enum. -/
inductive Error where
  | serdeError
  | httpError
  | hyperError
  | yupOauth2Error
  | ioError
  | parseIntError
  | fromUtf8Error
  | custom (msg : String)
deriving Repr, DecidableEq

/-- `PurchaseResponse` of `src/lib.rs`: the unified verdict. -/
structure PurchaseResponse where
  valid : Bool
  product_id : Option String
deriving Repr, DecidableEq

/-- Digit-accumulator loop of decimal parsing: returns `none` on the
first non-digit character. -/
def digitsAcc : List Char → Nat → Option Nat
  | [], acc => some acc
  | c :: cs, acc =>
    if c.isDigit then digitsAcc cs (acc * 10 + (c.toNat - 48)) else none

/-- Shallow embedding of Rust `str::parse::<i64>`: an optional single
leading sign, then one or more decimal digits, rejecting the empty digit
string, any other character, and values outside the `i64` range. -/
def parseI64 (s : String) : Option Int :=
  let val : Int → List Char → Option Int := fun sign cs =>
    match cs with
    | [] => none
    | _ =>
      (digitsAcc cs 0).bind fun n =>
        let v : Int := sign * (n : Int)
        if -(2 ^ 63) ≤ v ∧ v ≤ 2 ^ 63 - 1 then some v else none
  match s.toList with
  | '+' :: cs => val 1 cs
  | '-' :: cs => val (-1) cs
  | cs => val 1 cs

/-- `AppleLatestReceipt` of `src/apple.rs` (renewal-history entries;
carried on the response but not consulted by the evaluators). -/
structure AppleLatestReceipt where
  quantity : Option String
  cancellation_date_ms : Option String
  cancellation_reason : Option String
  expires_date_ms : Option String
  expires_date : Option String
  original_purchase_date : Option String
  product_id : Option String
  purchase_date : Option String
  transaction_id : Option String
deriving Repr, DecidableEq

/-- `AppleInAppReceipt` of `src/apple.rs`: one in-app transaction record. -/
structure AppleInAppReceipt where
  product_id : Option String
  transaction_id : Option String
  expires_date_ms : Option String
  expires_date : Option String
deriving Repr, DecidableEq

/-- `AppleReceipt` of `src/apple.rs`. -/
structure AppleReceipt where
  in_app : Option (List AppleInAppReceipt)
deriving Repr, DecidableEq

/-- `AppleResponse` of `src/apple.rs` (`status: i32` is modelled as `Int`;
the claims never exercise `i32` overflow). -/
structure AppleResponse where
  status : Int
  is_retryable : Option Bool
  environment : Option String
  latest_receipt : Option String
  latest_receipt_info : Option (List AppleLatestReceipt)
  receipt : Option AppleReceipt
deriving Repr, DecidableEq

/-- `AppleInAppReceipt::is_subscription`: the record denotes a
subscription when it has an `expires_date_ms` field. -/
def AppleInAppReceipt.is_subscription (r : AppleInAppReceipt) : Bool :=
  r.expires_date_ms.isSome

/-- `AppleReceipt::get_transaction`: first record of `in_app` whose
`transaction_id` equals `Some(transaction_id)` (a record without a
transaction id never matches). -/
def AppleReceipt.get_transaction (r : AppleReceipt) (transaction_id : String) :
    Option AppleInAppReceipt :=
  r.in_app.bind fun in_app =>
    in_app.find? fun a => a.transaction_id == some transaction_id

/-- The comparison key computed by the closure inside
`AppleReceipt::get_latest_receipt`:
`expires_date_ms.clone().unwrap_or_default().parse::<i64>().unwrap_or_default()`
— a missing or unparsable expiry becomes the `i64` default `0`. -/
def expiry_value (a : AppleInAppReceipt) : Int :=
  (parseI64 (a.expires_date_ms.getD "")).getD 0

/-- Rust `Iterator::max_by`: left fold keeping the accumulator only when
it compares strictly `Greater`, so of several equal maxima the last
element is returned; `none` on an empty list. -/
def max_by_last (cmp : α → α → Ordering) : List α → Option α
  | [] => none
  | x :: xs =>
    some (xs.foldl (fun acc y => if cmp acc y = Ordering.gt then acc else y) x)

/-- `AppleReceipt::get_latest_receipt`: record of `in_app` maximal under
comparison of `expiry_value` (the source's `partial_cmp(..).unwrap_or(Less)`
is total-order comparison on `i64`, where `partial_cmp` never returns
`None`). -/
def AppleReceipt.get_latest_receipt (r : AppleReceipt) :
    Option AppleInAppReceipt :=
  r.in_app.bind fun in_app =>
    max_by_last (fun a b => compare (expiry_value a) (expiry_value b)) in_app

/-- `AppleResponse::get_receipt`. -/
def AppleResponse.get_receipt (r : AppleResponse) (transaction_id : String) :
    Option AppleInAppReceipt :=
  r.receipt.bind fun receipt => receipt.get_transaction transaction_id

/-- `AppleResponse::get_latest_receipt`. -/
def AppleResponse.get_latest_receipt (r : AppleResponse) :
    Option AppleInAppReceipt :=
  r.receipt.bind AppleReceipt.get_latest_receipt

/-- `AppleResponse::get_product_id`. -/
def AppleResponse.get_product_id (r : AppleResponse) (transaction_id : String) :
    Option String :=
  (r.get_receipt transaction_id).bind fun receipt => receipt.product_id

/-- `AppleResponse::is_subscription`: true when `transaction_id` is empty,
or when the matching record exists and has an expiry field. -/
def AppleResponse.is_subscription (r : AppleResponse) (transaction_id : String) :
    Bool :=
  transaction_id.isEmpty ||
    ((r.get_receipt transaction_id).filter AppleInAppReceipt.is_subscription).isSome

/-- `validate_expiration` of `src/apple.rs`: `(valid, product_id)` of the
given record; `(false, None)` when the record is absent, has no expiry
field, or its expiry does not parse as `i64`; otherwise valid iff the
parsed expiry is strictly greater than `now` (milliseconds). -/
def validate_expiration (now : Int) (in_app_receipt : Option AppleInAppReceipt) :
    Bool × Option String :=
  (in_app_receipt.bind fun receipt =>
      receipt.expires_date_ms.bind fun expiry =>
        (parseI64 expiry).map fun expiry_time =>
          (decide (expiry_time > now), receipt.product_id)).getD (false, none)

/-- `validate_apple_subscription` of `src/apple.rs`: with an empty
transaction id, evaluate the latest (max-expiry) record; otherwise
evaluate the matching record and, whenever that verdict is invalid, fall
back to the latest record. -/
def validate_apple_subscription (response : AppleResponse)
    (transaction_id : String) (now : Int) : PurchaseResponse :=
  let p :=
    if transaction_id.isEmpty then
      validate_expiration now response.get_latest_receipt
    else
      let result := validate_expiration now (response.get_receipt transaction_id)
      if result.1 then result
      else validate_expiration now response.get_latest_receipt
  { valid := p.1, product_id := p.2 }

/-- `validate_apple_package` of `src/apple.rs`:
`valid = status == 0 && get_product_id(transaction_id).is_some()`. -/
def validate_apple_package (response : AppleResponse) (transaction_id : String) :
    PurchaseResponse :=
  let product_id := response.get_product_id transaction_id
  { valid := response.status == 0 && product_id.isSome
    product_id := response.get_product_id transaction_id }

/-- `fetch_apple_response` of `src/apple.rs`.  `server b` is the single
round trip (request build, POST to the production endpoint when
`b = true`, else the sandbox endpoint, and body parse), an oracle for the
hyper/serde collaborators.  The function recurses with `prod = false`
whenever the parsed response has status `21007`, exactly as the source's
`async_recursion` does — note the source never consults `prod` in that
condition.  `fuel` bounds the recursion depth of the embedding (the
source has no such bound); `none` means the recursion exceeded `fuel`.
The returned `Nat` counts requests issued (`server` calls). -/
def fetch_apple_response (server : Bool → Except Error AppleResponse) :
    Nat → Bool → Option (Except Error AppleResponse × Nat)
  | 0, _ => none
  | fuel + 1, prod =>
    match server prod with
    | .error e => some (.error e, 1)
    | .ok response =>
      if response.status = 21007 then
        (fetch_apple_response server fuel false).map fun r => (r.1, r.2 + 1)
      else
        some (.ok response, 1)

/-- The Store A branch of `UnityPurchaseValidator::validate`
(`src/lib.rs`): fetch (starting at production), propagate a fetch error
with `?`; on status `0` route by `is_subscription` to the subscription or
package evaluator, otherwise return `valid=false` with whatever product
id can be extracted.  The evaluator calls are written with the
`transaction_id`/`now` arguments of their definitions in `src/apple.rs`.
`none` propagates fuel exhaustion of the fetch model. -/
def validate_apple (server : Bool → Except Error AppleResponse)
    (transaction_id : String) (now : Int) (fuel : Nat) :
    Option (Except Error PurchaseResponse) :=
  match fetch_apple_response server fuel true with
  | none => none
  | some (.error e, _) => some (.error e)
  | some (.ok response, _) =>
    if response.status = 0 then
      if response.is_subscription transaction_id then
        some (.ok (validate_apple_subscription response transaction_id now))
      else
        some (.ok (validate_apple_package response transaction_id))
    else
      some (.ok { valid := false
                  product_id := response.get_product_id transaction_id })

/-- `GoogleResponse` of `src/google.rs` (`purchaseState: u32` modelled as
`Nat`, `purchaseType: i64` as `Int`). -/
structure GoogleResponse where
  expiry_time : Option String
  price_currency_code : Option String
  price_amount_micros : Option String
  order_id : String
  purchase_type : Option Int
  product_id : Option String
  purchase_state : Option Nat
deriving Repr, DecidableEq

/-- `GooglePlayData` of `src/google.rs`: the decoded Unity payload, whose
`json` and `sku_details` fields are themselves JSON-encoded strings. -/
structure GooglePlayData where
  json : String
  signature : String
  sku_details : String
deriving Repr, DecidableEq

/-- `SkuType` of `src/google.rs`. -/
inductive SkuType where
  | Subs
  | Inapp
deriving Repr, DecidableEq

/-- `SkuDetails` of `src/google.rs`. -/
structure SkuDetails where
  sku_type : SkuType
deriving Repr, DecidableEq

/-- `GooglePlayDataJson` of `src/google.rs`. -/
structure GooglePlayDataJson where
  package_name : String
  product_id : String
  token : String
  acknowledged : Bool
  auto_renewing : Option Bool
  purchase_time : Int
  order_id : String
  purchase_state : Int
deriving Repr, DecidableEq

/-- JSON values, for the in-repository serde-derived deserializers
(the text-to-value step of serde_json is external and appears as an
oracle where the source calls `serde_json::from_str`). -/
inductive Json where
  | jnull
  | jbool (b : Bool)
  | jnum (n : Int)
  | jstr (s : String)
  | jarr (elems : List Json)
  | jobj (fields : List (String × Json))

/-- The serde-derived deserializer of `SkuType` with its rename
attributes: the unit variants accept exactly the strings `subs` and
`inapp`; any other value is an unknown-variant error. -/
def SkuType.deserialize : Json → Except Error SkuType
  | .jstr s =>
    if s = "subs" then .ok .Subs
    else if s = "inapp" then .ok .Inapp
    else .error .serdeError
  | _ => .error .serdeError

/-- The serde-derived deserializer of `SkuDetails`: an object whose
`type` field deserializes as a `SkuType`; a missing field or a non-object
is an error (unknown extra fields are ignored, as serde does by
default). -/
def SkuDetails.deserialize (j : Json) : Except Error SkuDetails :=
  match j with
  | .jobj fields =>
    match fields.lookup "type" with
    | some v => (SkuType.deserialize v).map fun t => { sku_type := t }
    | none => .error .serdeError
  | _ => .error .serdeError

/-- `GooglePlayData::get_sku_details`: `serde_json::from_str::<SkuDetails>`
on the `sku_details` string — text parse (the `json_from_str` oracle)
followed by the derived deserializer. -/
def GooglePlayData.get_sku_details (json_from_str : String → Except Error Json)
    (data : GooglePlayData) : Except Error SkuDetails :=
  (json_from_str data.sku_details).bind SkuDetails.deserialize

/-- `GooglePlayData::get_uri`: decode the `json` field into
`GooglePlayDataJson` (the `data_json_from_str` oracle) and format the
androidpublisher URI, with the path segment selected by the SKU type. -/
def GooglePlayData.get_uri
    (data_json_from_str : String → Except Error GooglePlayDataJson)
    (data : GooglePlayData) (sku_type : SkuType) : Except Error String :=
  (data_json_from_str data.json).map fun parameters =>
    match sku_type with
    | .Subs =>
      "https://androidpublisher.googleapis.com/androidpublisher/v3/applications/"
        ++ parameters.package_name ++ "/purchases/subscriptions/"
        ++ parameters.product_id ++ "/tokens/" ++ parameters.token
    | .Inapp =>
      "https://androidpublisher.googleapis.com/androidpublisher/v3/applications/"
        ++ parameters.package_name ++ "/purchases/products/"
        ++ parameters.product_id ++ "/tokens/" ++ parameters.token

/-- `fetch_google_receipt_data_with_uri` of `src/google.rs`.  `net uri`
is the authenticated-or-test GET round trip including the response body
parse (hyper, oauth and serde are external collaborators).  After a
successful parse, a missing `productId` is backfilled from the Unity
metadata when that is available, re-decoding `data.json` and propagating
its decode error with `?`. -/
def fetch_google_receipt_data_with_uri
    (net : String → Except Error GoogleResponse)
    (data_json_from_str : String → Except Error GooglePlayDataJson)
    (uri : String) (data : Option GooglePlayData) :
    Except Error GoogleResponse :=
  (net uri).bind fun response =>
    if response.product_id.isNone then
      match data with
      | some d =>
        (data_json_from_str d.json).map fun parameters =>
          { response with product_id := some parameters.product_id }
      | none => .ok response
    else .ok response

/-- `validate_google_subscription` of `src/google.rs`:
`expiry_time.clone().unwrap_or_default().parse::<i64>()?` — a missing or
unparsable expiry is an error; otherwise valid iff the expiry is strictly
greater than `now` (milliseconds). -/
def validate_google_subscription (response : GoogleResponse) (now : Int) :
    Except Error PurchaseResponse :=
  match parseI64 (response.expiry_time.getD "") with
  | none => .error .parseIntError
  | some expiry_time =>
    .ok { valid := decide (expiry_time > now)
          product_id := response.product_id }

/-- `validate_google_package` of `src/google.rs`:
`valid = purchase_state.filter(0).is_some()`. -/
def validate_google_package (response : GoogleResponse) : PurchaseResponse :=
  { valid := (response.purchase_state.filter fun i => i == 0).isSome
    product_id := response.product_id }

/-- The fallible chain the Store B branch of
`UnityPurchaseValidator::validate` builds before pattern-matching on it
(`src/lib.rs`): `GooglePlayData::from(payload)` (the `payload_from_str`
oracle), then `get_sku_details`, then a pair of the `get_uri`-wrapped
fetch result and the SKU type.  The awaited fetch future appears as the
innermost `Except`. -/
def google_fetch_chain
    (payload_from_str : String → Except Error GooglePlayData)
    (json_from_str : String → Except Error Json)
    (data_json_from_str : String → Except Error GooglePlayDataJson)
    (net : String → Except Error GoogleResponse)
    (payload : String) :
    Except Error (Except Error (Except Error GoogleResponse) × SkuType) :=
  (payload_from_str payload).bind fun data =>
    (data.get_sku_details json_from_str).map fun sku_details =>
      let sku_type := sku_details.sku_type
      ((data.get_uri data_json_from_str sku_type).map fun uri =>
          fetch_google_receipt_data_with_uri net data_json_from_str uri
            (some data),
        sku_type)

/-- The Store B branch of `UnityPurchaseValidator::validate`
(`src/lib.rs`): only a fully successful chain
(`Ok((Ok(future), sku_type))` with the awaited future itself `Ok`)
reaches an evaluator; every other outcome falls to the
`Ok(PurchaseResponse { valid: false, product_id: None })` arms.  The
subscription evaluator is called with the `now` argument of its
definition in `src/google.rs`. -/
def validate_google
    (payload_from_str : String → Except Error GooglePlayData)
    (json_from_str : String → Except Error Json)
    (data_json_from_str : String → Except Error GooglePlayDataJson)
    (net : String → Except Error GoogleResponse)
    (payload : String) (now : Int) : Except Error PurchaseResponse :=
  match google_fetch_chain payload_from_str json_from_str data_json_from_str
      net payload with
  | .ok (.ok fetched, sku_type) =>
    match fetched with
    | .ok response =>
      match sku_type with
      | .Subs => validate_google_subscription response now
      | .Inapp => .ok (validate_google_package response)
    | .error _ => .ok { valid := false, product_id := none }
  | _ => .ok { valid := false, product_id := none }

/-- A Store A response whose only content is status `21007`, as both
endpoints reply it in the non-termination scenario. -/
def apple_status_21007_response : AppleResponse :=
  { status := 21007, is_retryable := none, environment := none
    latest_receipt := none, latest_receipt_info := none, receipt := none }

/-- Server oracle answering status `21007` from the production and the
sandbox endpoint alike. -/
def server_both_21007 : Bool → Except Error AppleResponse :=
  fun _ => .ok apple_status_21007_response

/-- A Store A response with a status that is neither `0` nor `21007`. -/
def apple_status_333_response : AppleResponse :=
  { status := 333, is_retryable := none, environment := none
    latest_receipt := none, latest_receipt_info := none, receipt := none }

/-- Server oracle answering status `333` from either endpoint. -/
def server_status_333 : Bool → Except Error AppleResponse :=
  fun _ => .ok apple_status_333_response

/-- A transaction record that matches transaction id `txn` but carries no
product id. -/
def apple_record_no_product : AppleInAppReceipt :=
  { product_id := none, transaction_id := some "txn"
    expires_date_ms := none, expires_date := none }

/-- A status-0 response whose matching record has no product id. -/
def apple_response_no_product : AppleResponse :=
  { status := 0, is_retryable := none, environment := none
    latest_receipt := none, latest_receipt_info := none
    receipt := some { in_app := some [apple_record_no_product] } }

/-- A record with the parsable, negative expiry `-1`. -/
def record_negative_expiry : AppleInAppReceipt :=
  { product_id := some "neg", transaction_id := some "t1"
    expires_date_ms := some "-1", expires_date := none }

/-- A record whose expiry string does not parse as an integer. -/
def record_unparsable_expiry : AppleInAppReceipt :=
  { product_id := some "bad", transaction_id := some "t2"
    expires_date_ms := some "soon", expires_date := none }

/-- The reference instant of the concrete three-record scenario,
milliseconds since the epoch. -/
def now_ms : Int := 1700000000000

/-- Record expiring one day before `now_ms`. -/
def rec_minus_day : AppleInAppReceipt :=
  { product_id := some "p_minus", transaction_id := some "t_minus"
    expires_date_ms := some "1699913600000", expires_date := none }

/-- Record expiring exactly at `now_ms`. -/
def rec_now : AppleInAppReceipt :=
  { product_id := some "p_now", transaction_id := some "t_now"
    expires_date_ms := some "1700000000000", expires_date := none }

/-- Record expiring one day after `now_ms`. -/
def rec_plus_day : AppleInAppReceipt :=
  { product_id := some "p_plus", transaction_id := some "t_plus"
    expires_date_ms := some "1700086400000", expires_date := none }

/-- Status-0 response holding the three records with expiries one day
before `now_ms`, exactly `now_ms`, and one day after. -/
def three_record_response : AppleResponse :=
  { status := 0, is_retryable := none, environment := none
    latest_receipt := none, latest_receipt_info := none
    receipt := some { in_app := some [rec_minus_day, rec_now, rec_plus_day] } }

/-- A subscription record with expiry `1000`, for concrete witnesses. -/
def sub_record_1000 : AppleInAppReceipt :=
  { product_id := some "p", transaction_id := some "t"
    expires_date_ms := some "1000", expires_date := none }

/-- A Store B response with expiry `1000`, for concrete witnesses. -/
def google_response_1000 : GoogleResponse :=
  { expiry_time := some "1000", price_currency_code := none
    price_amount_micros := none, order_id := "order", purchase_type := none
    product_id := some "gp", purchase_state := some 0 }

/-- A Store B response with no expiry field. -/
def google_response_no_expiry : GoogleResponse :=
  { expiry_time := none, price_currency_code := none
    price_amount_micros := none, order_id := "order", purchase_type := none
    product_id := some "gp", purchase_state := some 0 }

/-- Oracle: the Unity payload fails to decode as `GooglePlayData`. -/
def decode_fail_oracle : String → Except Error GooglePlayData :=
  fun _ => .error .serdeError

/-- Oracle: the Unity payload decodes. -/
def decode_ok_oracle : String → Except Error GooglePlayData :=
  fun _ => .ok { json := "j", signature := "s", sku_details := "d" }

/-- Oracle: JSON text parses to the object with SKU type `subs`. -/
def json_subs_oracle : String → Except Error Json :=
  fun _ => .ok (.jobj [("type", .jstr "subs")])

/-- Oracle: purchase-parameter JSON decodes. -/
def data_json_ok_oracle : String → Except Error GooglePlayDataJson :=
  fun _ =>
    .ok { package_name := "pkg", product_id := "prod", token := "tok"
          acknowledged := true, auto_renewing := none, purchase_time := 0
          order_id := "order", purchase_state := 1 }

/-- Oracle: the network round trip fails. -/
def net_fail_oracle : String → Except Error GoogleResponse :=
  fun _ => .error .hyperError

/-- A Store B response whose expiry string does not parse as an integer. -/
def google_response_bad_expiry : GoogleResponse :=
  { expiry_time := some "abc", price_currency_code := none
    price_amount_micros := none, order_id := "order", purchase_type := none
    product_id := some "gp", purchase_state := some 0 }

/-- The fold of `max_by_last` with the `expiry_value` comparator returns
an element of the list that is maximal under `expiry_value`. -/
lemma foldl_pick_max (l : List AppleInAppReceipt) (x : AppleInAppReceipt) :
    (l.foldl (fun acc y => if compare (expiry_value acc) (expiry_value y) = Ordering.gt then acc else y) x = x
      ∨ l.foldl (fun acc y => if compare (expiry_value acc) (expiry_value y) = Ordering.gt then acc else y) x ∈ l)
    ∧ expiry_value x ≤ expiry_value (l.foldl (fun acc y => if compare (expiry_value acc) (expiry_value y) = Ordering.gt then acc else y) x)
    ∧ ∀ y ∈ l, expiry_value y ≤ expiry_value (l.foldl (fun acc y => if compare (expiry_value acc) (expiry_value y) = Ordering.gt then acc else y) x) := by
  induction l generalizing x with
  | nil => simp
  | cons y ys ih =>
    simp only [List.foldl_cons]
    obtain ⟨hmem, hx, hall⟩ := ih (if compare (expiry_value x) (expiry_value y) = Ordering.gt then x else y)
    by_cases h : compare (expiry_value x) (expiry_value y) = Ordering.gt
    · rw [if_pos h] at hmem hx hall
      have hyx : expiry_value y < expiry_value x := compare_gt_iff_gt.mp h
      refine ⟨?_, ?_, ?_⟩
      · rw [if_pos h]
        rcases hmem with hm | hm
        · exact Or.inl hm
        · exact Or.inr (List.mem_cons_of_mem y hm)
      · rw [if_pos h]; exact hx
      · intro z hz
        rw [if_pos h]
        rcases List.mem_cons.mp hz with hzz | hzz
        · subst hzz; exact le_trans (le_of_lt hyx) hx
        · exact hall z hzz
    · rw [if_neg h] at hmem hx hall
      have hxy : expiry_value x ≤ expiry_value y := not_lt.mp fun hc => h (compare_gt_iff_gt.mpr hc)
      refine ⟨?_, ?_, ?_⟩
      · rw [if_neg h]
        rcases hmem with hm | hm
        · exact Or.inr (by rw [hm]; exact List.mem_cons_self y ys)
        · exact Or.inr (List.mem_cons_of_mem y hm)
      · rw [if_neg h]; exact le_trans hxy hx
      · intro z hz
        rw [if_neg h]
        rcases List.mem_cons.mp hz with hzz | hzz
        · subst hzz; exact hx
        · exact hall z hzz

/-- Claim C1, counterexample: a Google Play receipt whose payload fails
to decode is answered with `Ok(valid=false, product_id=None)` — an `Ok`,
not an `Err` — refuting the claim that every decode/network/parse
failure is returned to the caller as an error. -/
theorem c1_google_error_to_ok_counterexample :
    validate_google decode_fail_oracle json_subs_oracle data_json_ok_oracle
      net_fail_oracle "blob" 7 = .ok { valid := false, product_id := none } := rfl

/-- Claim C1, amended: in the Google Play branch of
`UnityPurchaseValidator::validate`, every payload-decode,
SKU-details-decode, URI-construction, network, or response-parse failure
— that is, every run in which the fetch chain does not produce a fully
successful response — is converted into `Ok(valid=false,
product_id=None)` rather than surfaced as an `Err`. -/
theorem c1_google_failures_become_ok
    (payload_from_str : String → Except Error GooglePlayData)
    (json_from_str : String → Except Error Json)
    (data_json_from_str : String → Except Error GooglePlayDataJson)
    (net : String → Except Error GoogleResponse)
    (payload : String) (now : Int)
    (h : ∀ (response : GoogleResponse) (sku_type : SkuType),
        google_fetch_chain payload_from_str json_from_str data_json_from_str
          net payload ≠ .ok (.ok (.ok response), sku_type)) :
    validate_google payload_from_str json_from_str data_json_from_str net
      payload now = .ok { valid := false, product_id := none } := by
  unfold validate_google
  generalize hg : google_fetch_chain payload_from_str json_from_str
    data_json_from_str net payload = c
  rw [hg] at h
  match c with
  | .error e => rfl
  | .ok (.error e, sku) => rfl
  | .ok (.ok (.error e), sku) => rfl
  | .ok (.ok (.ok resp), sku) => exact absurd rfl (h resp sku)

/-- Claim C1, witness: the amended theorem applied to a run whose network
round trip fails. -/
theorem c1_google_failures_witness :
    validate_google decode_ok_oracle json_subs_oracle data_json_ok_oracle
      net_fail_oracle "blob" 7 = .ok { valid := false, product_id := none } :=
  c1_google_failures_become_ok decode_ok_oracle json_subs_oracle
    data_json_ok_oracle net_fail_oracle "blob" 7
    (by
      intro resp sku hch
      rw [show google_fetch_chain decode_ok_oracle json_subs_oracle
          data_json_ok_oracle net_fail_oracle "blob"
          = .ok (.ok (.error .hyperError), .Subs) from rfl] at hch
      simp at hch)

/-- Claim C2, code bug: when the production endpoint and the sandbox
endpoint both answer status `21007`, `fetch_apple_response` recurses on
the sandbox endpoint again instead of returning the second response —
for every recursion bound the fetch fails to return, so the fetch is
not bounded by two requests and does not terminate. -/
theorem c2_sandbox_21007_no_return :
    ∀ (fuel : Nat) (prod : Bool),
      fetch_apple_response server_both_21007 fuel prod = none := by
  intro fuel
  induction fuel with
  | zero => intro _; rfl
  | succ n ih =>
    intro prod
    simp [fetch_apple_response, server_both_21007, apple_status_21007_response, ih]

/-- Claim C3, counterexample: a Store B subscription response with no
expiry field makes `validate_google_subscription` return an error, not
`valid=false`. -/
theorem c3_missing_expiry_counterexample :
    validate_google_subscription google_response_no_expiry 0 =
      .error .parseIntError := rfl

/-- Claim C3, amended: for every Store B subscription response whose
expiry timestamp is missing or not parsable as an integer, the
subscription evaluator returns `Err(ParseIntError)` (as its own doc
comment states), not a `valid=false` verdict. -/
theorem c3_unparsable_expiry_is_error (response : GoogleResponse) (now : Int)
    (h : parseI64 (response.expiry_time.getD "") = none) :
    validate_google_subscription response now = .error .parseIntError := by
  simp [validate_google_subscription, h]

/-- Claim C3, witness: the amended theorem applied to a response whose
expiry string is not a number. -/
theorem c3_unparsable_expiry_witness :
    validate_google_subscription google_response_bad_expiry 5 =
      .error .parseIntError :=
  c3_unparsable_expiry_is_error google_response_bad_expiry 5 (by decide)

/-- Claim C4, counterexample: a status-0 response with a transaction
record matching `txn` but carrying no product id is judged
`valid=false` by `validate_apple_package`, refuting the claim that a
matching record plus status `0` suffices for `valid=true`. -/
theorem c4_package_missing_product_counterexample :
    apple_response_no_product.status = 0
    ∧ apple_response_no_product.get_receipt "txn" = some apple_record_no_product
    ∧ (validate_apple_package apple_response_no_product "txn").valid = false :=
  ⟨rfl, by decide, by decide⟩

/-- Claim C4, amended: the non-subscription evaluator returns
`valid=true` if and only if the status is `0` and a transaction record
matching the transaction id exists in `receipt.in_app` and that record
carries a product id. -/
theorem c4_package_valid_iff (response : AppleResponse) (transaction_id : String) :
    (validate_apple_package response transaction_id).valid = true ↔
      (response.status = 0 ∧ ∃ r, response.get_receipt transaction_id = some r
        ∧ r.product_id.isSome = true) := by
  unfold validate_apple_package AppleResponse.get_product_id
  rcases hr : response.get_receipt transaction_id with _ | r
  · simp [hr]
  · simp [hr]

/-- Claim C5, counterexample: a record whose expiry does not parse is
selected by `get_latest_receipt` over a record with the parsable expiry
`-1`, refuting the claim that an unparsable expiry is treated as the
lowest possible value and never selected over a parsable one. -/
theorem c5_unparsable_selected_counterexample :
    parseI64 "-1" = some (-1)
    ∧ parseI64 "soon" = none
    ∧ (AppleReceipt.mk
        (some [record_negative_expiry, record_unparsable_expiry])).get_latest_receipt
        = some record_unparsable_expiry :=
  ⟨by decide, by decide, by decide⟩

/-- Claim C5, amended: in the max-expiry selection a record whose expiry
field is missing or unparsable is treated as having expiry value `0`
(the `i64` default, not the lowest possible value), and the selection
never aborts: on any nonempty record list it returns a record whose
treated expiry value is maximal. -/
theorem c5_latest_is_max_with_default_zero :
    (∀ r : AppleInAppReceipt,
        parseI64 (r.expires_date_ms.getD "") = none → expiry_value r = 0)
    ∧ ∀ (x : AppleInAppReceipt) (l : List AppleInAppReceipt),
        ∃ r, (AppleReceipt.mk (some (x :: l))).get_latest_receipt = some r
          ∧ (r = x ∨ r ∈ l)
          ∧ expiry_value x ≤ expiry_value r
          ∧ ∀ y ∈ l, expiry_value y ≤ expiry_value r := by
  constructor
  · intro r h; simp [expiry_value, h]
  · intro x l
    exact ⟨_, rfl, foldl_pick_max l x⟩

/-- Claim C6: with a non-empty transaction id the matching record is what
`validate_apple_subscription` evaluates (first conjunct); whenever that
evaluation is invalid — the record is absent or its expiry is already
past — the evaluation falls back to the record with the maximum expiry
(second conjunct); and on the concrete response holding expiries one day
before now, exactly now, and one day after now, with an empty transaction
id, the one-day-after record is selected and the verdict is `valid=true`
with its product id (third conjunct). -/
theorem c6_subscription_fallback (response : AppleResponse)
    (transaction_id : String) (now : Int)
    (h : transaction_id.isEmpty = false) :
    ((validate_expiration now (response.get_receipt transaction_id)).1 = true →
      validate_apple_subscription response transaction_id now =
        { valid := true
          product_id := (validate_expiration now (response.get_receipt transaction_id)).2 })
    ∧ ((validate_expiration now (response.get_receipt transaction_id)).1 = false →
      validate_apple_subscription response transaction_id now =
        { valid := (validate_expiration now response.get_latest_receipt).1
          product_id := (validate_expiration now response.get_latest_receipt).2 })
    ∧ validate_apple_subscription three_record_response "" now_ms =
        { valid := true, product_id := some "p_plus" } := by
  refine ⟨?_, ?_, by decide⟩
  · intro hv
    simp [validate_apple_subscription, h, hv]
  · intro hv
    simp [validate_apple_subscription, h, hv]

/-- Claim C6, witness: the fallback conjunct applied to the three-record
response and the transaction id of the exactly-at-now record, whose
evaluation is invalid. -/
theorem c6_subscription_witness :
    validate_apple_subscription three_record_response "t_now" now_ms =
      { valid := (validate_expiration now_ms three_record_response.get_latest_receipt).1
        product_id := (validate_expiration now_ms three_record_response.get_latest_receipt).2 } :=
  (c6_subscription_fallback three_record_response "t_now" now_ms (by decide)).2.1
    (by decide)

/-- Claim C7: for both stores, when the selected record's expiry parses
to `e`, the verdict is valid if and only if `e` is strictly greater than
`now`; in particular an expiry exactly equal to `now` yields
`valid=false`. -/
theorem c7_strict_expiry (r : AppleInAppReceipt) (s : String) (e now : Int)
    (g : GoogleResponse)
    (hr : r.expires_date_ms = some s) (hs : parseI64 s = some e)
    (hg : parseI64 (g.expiry_time.getD "") = some e) :
    validate_expiration now (some r) = (decide (e > now), r.product_id)
    ∧ validate_google_subscription g now =
        .ok { valid := decide (e > now), product_id := g.product_id }
    ∧ (e = now → decide (e > now) = false) := by
  refine ⟨?_, ?_, ?_⟩
  · simp [validate_expiration, hr, hs]
  · simp [validate_google_subscription, hg]
  · intro he; subst he; simp

/-- Claim C7, witness: both evaluators at an expiry exactly equal to
`now = 1000`, where the verdict is `valid=false`. -/
theorem c7_strict_expiry_witness :
    validate_expiration 1000 (some sub_record_1000) =
      (decide ((1000 : Int) > 1000), sub_record_1000.product_id)
    ∧ validate_google_subscription google_response_1000 1000 =
        .ok { valid := decide ((1000 : Int) > 1000)
              product_id := google_response_1000.product_id }
    ∧ ((1000 : Int) = 1000 → decide ((1000 : Int) > 1000) = false) :=
  c7_strict_expiry sub_record_1000 "1000" 1000 1000 google_response_1000 rfl
    (by decide) (by decide)

/-- Claim C8: when the production endpoint answers a status that is
neither `0` nor `21007`, the fetch returns that response after exactly
one request, and the Store A branch of `validate` returns `valid=false`
with whatever product id can still be extracted from the matching
transaction record. -/
theorem c8_nonzero_status (server : Bool → Except Error AppleResponse)
    (response : AppleResponse) (transaction_id : String) (now : Int) (fuel : Nat)
    (hserver : server true = .ok response)
    (h21007 : response.status ≠ 21007) (h0 : response.status ≠ 0) :
    fetch_apple_response server (fuel + 1) true = some (.ok response, 1)
    ∧ validate_apple server transaction_id now (fuel + 1) =
        some (.ok { valid := false
                    product_id := response.get_product_id transaction_id }) := by
  have hf : fetch_apple_response server (fuel + 1) true = some (.ok response, 1) := by
    simp [fetch_apple_response, hserver, h21007]
  refine ⟨hf, ?_⟩
  simp [validate_apple, hf, h0]

/-- Claim C8, witness: the theorem applied to a server answering status
`333`. -/
theorem c8_nonzero_status_witness :
    fetch_apple_response server_status_333 (0 + 1) true =
      some (.ok apple_status_333_response, 1)
    ∧ validate_apple server_status_333 "txn" 0 (0 + 1) =
        some (.ok { valid := false
                    product_id := apple_status_333_response.get_product_id "txn" }) :=
  c8_nonzero_status server_status_333 apple_status_333_response "txn" 0 0 rfl
    (by decide) (by decide)

/-- Claim C9: decoding a `SkuType` (and hence the `skuDetails` object)
from any string other than exactly `subs` or `inapp` fails with a decode
error; no default SKU type is assumed. -/
theorem c9_unknown_sku_rejected (s : String)
    (h1 : s ≠ "subs") (h2 : s ≠ "inapp") :
    SkuType.deserialize (Json.jstr s) = .error .serdeError
    ∧ SkuDetails.deserialize (Json.jobj [("type", Json.jstr s)]) =
        .error .serdeError := by
  have ht : SkuType.deserialize (Json.jstr s) = .error .serdeError := by
    simp [SkuType.deserialize, h1, h2]
  refine ⟨ht, ?_⟩
  simp [SkuDetails.deserialize, List.lookup, ht, Except.map]

/-- Claim C9, witness: the theorem applied to the SKU type string
`points`. -/
theorem c9_unknown_sku_witness :
    SkuType.deserialize (Json.jstr "points") = .error .serdeError
    ∧ SkuDetails.deserialize (Json.jobj [("type", Json.jstr "points")]) =
        .error .serdeError :=
  c9_unknown_sku_rejected "points" (by decide) (by decide)

/-- Claim C10: for every response, `is_subscription` with an empty
transaction id is true, and with status `0` the Store A branch of
`validate` routes an empty-transaction-id receipt to the subscription
evaluator. -/
theorem c10_empty_tid_subscription (server : Bool → Except Error AppleResponse)
    (response : AppleResponse) (now : Int) (fuel : Nat)
    (hserver : server true = .ok response) (h0 : response.status = 0) :
    response.is_subscription "" = true
    ∧ validate_apple server "" now (fuel + 1) =
        some (.ok (validate_apple_subscription response "" now)) := by
  have hsub : response.is_subscription "" = true := by
    simp only [AppleResponse.is_subscription, Bool.or_eq_true]
    exact Or.inl rfl
  have hf : fetch_apple_response server (fuel + 1) true = some (.ok response, 1) := by
    simp [fetch_apple_response, hserver, h0]
  refine ⟨hsub, ?_⟩
  simp [validate_apple, hf, h0, hsub]

/-- Claim C10, witness: the theorem applied to the three-record
status-0 response. -/
theorem c10_empty_tid_witness :
    three_record_response.is_subscription "" = true
    ∧ validate_apple (fun _ => .ok three_record_response) "" now_ms (0 + 1) =
        some (.ok (validate_apple_subscription three_record_response "" now_ms)) :=
  c10_empty_tid_subscription (fun _ => .ok three_record_response)
    three_record_response now_ms 0 rfl rfl

end Iap
